import Mathlib

/-!
Shallow embedding of the Reference Verification Orchestration Engine
(app.py, services.py, models.py): the call-completion classifier, the
verification scorer, the SMS callback sub-state-machine, the scheduled
callback sweep, token validity, survey submission and the E.164 phone
formatter, together with theorems settling the specification claims.

Conventions: database rows become structures; `datetime.utcnow()` is a
`Nat` timestamp (seconds) passed as a parameter, with all reads inside a
single request handler modelled as the same instant; Python `None` is
`Option.none`; JSON list columns are Lean lists; external providers
(voice, SMS, LLM) are oracles passed as explicit arguments. Python
string primitives (`in`, `startswith`, `endswith`, `lower`, `strip`)
are modelled on explicit character lists so that every definition
evaluates inside the kernel.
-/

/-- Python `s.startswith(p)` on explicit character lists. -/
def starts_with_chars : List Char → List Char → Bool
  | [], _ => true
  | _ :: _, [] => false
  | p :: ps, c :: cs => p == c && starts_with_chars ps cs

/-- Helper for the Python substring operator `pat in s`: does `pat` occur
at some position of the character list? -/
def contains_chars (pat : List Char) : List Char → Bool
  | [] => starts_with_chars pat []
  | c :: cs => starts_with_chars pat (c :: cs) || contains_chars pat cs

/-- Python `pat in s` (substring containment). -/
def str_contains (s pat : String) : Bool :=
  contains_chars pat.toList s.toList

/-- Python `s.startswith(pat)`. -/
def str_starts_with (s pat : String) : Bool :=
  starts_with_chars pat.toList s.toList

/-- Python `s.endswith(pat)`. -/
def str_ends_with (s pat : String) : Bool :=
  starts_with_chars pat.toList.reverse s.toList.reverse

/-- ASCII lower-casing of one character, Python `c.lower()` on the
ASCII range. -/
def char_lower (c : Char) : Char :=
  if 'A' ≤ c ∧ c ≤ 'Z' then Char.ofNat (c.toNat + 32) else c

/-- Python `s.lower()` (the strings compared in the source are ASCII). -/
def str_lower (s : String) : String :=
  String.mk (s.toList.map char_lower)

/-- Python whitespace as recognized by `str.strip()`. -/
def is_space (c : Char) : Bool :=
  c == ' ' || c == '\t' || c == '\n' || c == '\r' || c == '\x0b' || c == '\x0c'

/-- Python `s.strip()`: drop leading and trailing whitespace. -/
def str_strip (s : String) : String :=
  String.mk (((s.toList.dropWhile is_space).reverse.dropWhile is_space).reverse)

/-- Structured transcript analysis as produced by
`analyze_transcript_with_claude` (services.py): a JSON object read with
`.get`, so every field may be absent (`none`). -/
structure Analysis where
  employment_confirmed : Option Bool
  dates_accurate : Option Bool
  title_confirmed : Option Bool
  would_rehire : Option Bool
  achievements_verified : List String
  achievements_not_verified : List String
  discrepancies : List String
  red_flags : List String
  positive_signals : List String
  overall_sentiment : Option String
  summary : Option String
deriving DecidableEq

/-- The `sentiment_scores` lookup table of
`calculate_verification_score` (services.py lines 272-276), with the
Python `dict.get(key, 0)` default. -/
def sentiment_scores (s : String) : Int :=
  if s = "very_positive" then 10
  else if s = "positive" then 5
  else if s = "neutral" then 0
  else if s = "negative" then -15
  else if s = "very_negative" then -25
  else 0

/-- One `if v == True: score += pos / elif v == False: score -= |neg|`
block of `calculate_verification_score`, as the signed adjustment it
adds to the running score (0 when the field is absent). -/
def bool_adjust (v : Option Bool) (pos neg : Int) : Int :=
  match v with
  | some true => pos
  | some false => neg
  | none => 0

/-- Embedding of `calculate_verification_score` (services.py lines 225-278): the
running integer `score` starts at 50 and receives each adjustment in
source order, then `max(0, min(100, int(score)))`; the running value is
always an integer, so the Python `int()` call is the identity. -/
def calculate_verification_score (structured_data : Analysis) : Int :=
  let score : Int := 50
  let score := score + bool_adjust structured_data.employment_confirmed 15 (-30)
  let score := score + bool_adjust structured_data.dates_accurate 10 (-20)
  let score := score + bool_adjust structured_data.title_confirmed 10 (-15)
  let score := score + bool_adjust structured_data.would_rehire 15 (-25)
  let verified : Int := structured_data.achievements_verified.length
  let not_verified : Int := structured_data.achievements_not_verified.length
  let score := score + min (verified * 5) 15
  let score := score - not_verified * 8
  let score := score - (structured_data.discrepancies.length : Int) * 10
  let score := score - (structured_data.red_flags.length : Int) * 7
  let score := score + min ((structured_data.positive_signals.length : Int) * 3) 10
  let score := score + sentiment_scores (structured_data.overall_sentiment.getD "neutral")
  max 0 (min 100 score)

/-- The reference scoring formula as worded by the specification
(spec.md section 4.2) and claim C2: one flat sum of the ten adjustments
around the baseline 50, clamped at the end. -/
def spec_score (a : Analysis) : Int :=
  max 0 (min 100 (50
    + bool_adjust a.employment_confirmed 15 (-30)
    + bool_adjust a.dates_accurate 10 (-20)
    + bool_adjust a.title_confirmed 10 (-15)
    + bool_adjust a.would_rehire 15 (-25)
    + min (5 * (a.achievements_verified.length : Int)) 15
    - 8 * (a.achievements_not_verified.length : Int)
    - 10 * (a.discrepancies.length : Int)
    - 7 * (a.red_flags.length : Int)
    + min (3 * (a.positive_signals.length : Int)) 10
    + sentiment_scores (a.overall_sentiment.getD "neutral")))

/-- Digit extraction, Python `re.sub(r"\D", "", phone)`. -/
def extract_digits (phone : String) : String :=
  String.mk (phone.toList.filter Char.isDigit)

/-- Embedding of `format_phone_e164` (services.py lines 374-390), branch
for branch. -/
def format_phone_e164 (phone : String) : String :=
  let digits := extract_digits phone
  if digits.length = 10 then "+1" ++ digits
  else if digits.length = 11 && str_starts_with digits "1" then "+" ++ digits
  else if digits.length ≥ 11 then "+" ++ digits
  else if !(str_starts_with phone "+") then "+" ++ digits else phone

/-- The E.164 normalization rules as worded by claim C9, applied to the
digit sequence of the input: 10 digits get "+1", 11 digits leading "1"
get "+", 11 or more digits get "+", and shorter inputs get "+" unless
the original input already starts with "+" (then it passes through). -/
def spec_format_phone (phone : String) : String :=
  let digits := extract_digits phone
  if digits.length = 10 then "+1" ++ digits
  else if digits.length = 11 && str_starts_with digits "1" then "+" ++ digits
  else if digits.length ≥ 11 then "+" ++ digits
  else if str_starts_with phone "+" then phone else "+" ++ digits

/-- One entry of the `sms_conversation` JSON log
(`add_to_sms_conversation`, services.py lines 1376-1393). -/
structure SmsMsg where
  direction : String
  message : String
  timestamp : Nat
deriving DecidableEq

/-- A `Reference` row (models.py lines 419-485), restricted to the
fields the state machine reads or writes; `candidate_user_id` stands
for the `reference.candidate.user_id` access path used by the SMS
webhook. -/
structure Reference where
  name : String
  phone : String
  candidate_user_id : Option Nat
  contact_method : String
  status : String
  survey_status : String
  call_id : Option String
  sms_sent : Bool
  sms_sent_at : Option Nat
  sms_response : Option String
  callback_status : String
  callback_scheduled_time : Option Nat
  callback_timezone : Option String
  sms_conversation : List SmsMsg
  callback_expires_at : Option Nat
  notes : Option String
  score : Option Int
  transcript : Option String
  summary : Option String
  sentiment : Option String
  red_flags : Option (List String)
  discrepancies : Option (List String)
  achievements_verified : Option (List String)
  achievements_not_verified : Option (List String)
  positive_signals : Option (List String)
  structured_data : Option Analysis
  updated_at : Option Nat
  completed_at : Option Nat
deriving DecidableEq

/-- A `Candidate` row with its owned references (the fields the rollup
and the call-status handler touch). -/
structure Candidate where
  name : String
  status : String
  references : List Reference
deriving DecidableEq

/-- The relevant part of the Vapi payload consumed by
`check_call_status`: `call_data.get("status", "unknown")`,
`call_data.get("endedReason", "")` and
the transcript field nested under the artifact key. -/
structure CallData where
  call_status : String
  endedReason : String
  transcript : String
  recordingUrl : Option String
deriving DecidableEq

/-- Ambient inputs of one `check_call_status` request: whether Twilio
credentials are configured (`TWILIO_ACCOUNT_SID` truthy), the outcome
of `send_callback_request_sms` (its `success` key), whether a job row
was found (`reference.job` or the first job of the candidate), the result of
`analyze_transcript_with_claude` (`none` when analysis fails), and the
clock instant of the request. -/
structure CallEnv where
  twilio_configured : Bool
  sms_send_success : Bool
  job_present : Bool
  analysis : Option Analysis
  now : Nat
deriving DecidableEq

/-- The `unsuccessful_reasons` vocabulary of `check_call_status`
(app.py lines 844-850), verbatim. -/
def unsuccessful_reasons : List String :=
  ["voicemail", "no-answer", "busy", "failed", "rejected",
   "declined", "machine", "answering-machine", "no_answer",
   "customer-busy", "customer-did-not-answer", "no-human",
   "assistant-error", "phone-call-provider-closed-websocket",
   "customer-did-not-give-microphone-permission"]

/-- Embedding of `add_to_sms_conversation` (services.py lines 1376-1393): append one
entry to the conversation log. -/
def add_to_sms_conversation (r : Reference) (direction message : String) (now : Nat) :
    Reference :=
  { r with sms_conversation := r.sms_conversation ++ [⟨direction, message, now⟩] }

/-- Python `s.split()[0]`: the first whitespace-delimited word. -/
def first_word (s : String) : String :=
  String.mk ((s.toList.dropWhile is_space).takeWhile (fun c => !is_space c))

/-- The callback-request SMS body logged by `check_call_status`
(app.py lines 877-878). -/
def callback_request_message (r : Reference) (candidate_name : String) : String :=
  "Hi " ++ first_word r.name ++ ", we tried to reach you regarding a reference check for "
    ++ candidate_name ++ ". Is there a better time to call you back? Please reply with a day and time."

/-- The `status == "ended"` arm of `check_call_status` (app.py lines
840-942), as a transition on the Reference row: classify the ended
call, on an unsuccessful outcome move to `no_answer` and send the
first callback-request SMS, otherwise move to `completed` and persist
the transcript analysis when one is produced. -/
def handle_ended_call (reference : Reference) (candidate_name : String)
    (call_data : CallData) (env : CallEnv) : Reference :=
  let ended_reason_lower := str_lower call_data.endedReason
  let is_unsuccessful := unsuccessful_reasons.any
    (fun reason => str_contains ended_reason_lower reason)
  let transcript := call_data.transcript
  let transcript_too_short := decide ((str_strip transcript).length < 100)
  if is_unsuccessful || (transcript_too_short && !str_contains ended_reason_lower "hangup") then
    let reference := { reference with
      status := "no_answer",
      notes := some ("Call unsuccessful: " ++ call_data.endedReason) }
    if !reference.sms_sent && env.twilio_configured then
      if env.sms_send_success then
        let reference := { reference with
          sms_sent := true,
          sms_sent_at := some env.now,
          callback_status := "awaiting_reply",
          callback_expires_at := some (env.now + 24 * 60 * 60) }
        add_to_sms_conversation reference "outbound"
          (callback_request_message reference candidate_name) env.now
      else reference
    else reference
  else
    let reference := { reference with
      status := "completed",
      completed_at := some env.now,
      transcript := some transcript }
    if env.job_present && transcript != "" then
      match env.analysis with
      | some analysis =>
        { reference with
          score := some (calculate_verification_score analysis),
          summary := some (analysis.summary.getD ""),
          sentiment := some (analysis.overall_sentiment.getD "neutral"),
          red_flags := some analysis.red_flags,
          discrepancies := some analysis.discrepancies,
          achievements_verified := some analysis.achievements_verified,
          achievements_not_verified := some analysis.achievements_not_verified,
          positive_signals := some analysis.positive_signals,
          structured_data := some analysis }
      | none => reference
    else reference

/-- Embedding of the rollup test
`all(r.status in ["completed", "failed", "no_answer"] for r in candidate.references)`
(app.py line 946). -/
def all_references_done (refs : List Reference) : Bool :=
  refs.all (fun r => r.status == "completed" || r.status == "failed" || r.status == "no_answer")

/-- Embedding of `check_call_status` (app.py lines 809-955) on the Candidate
aggregate, with `i` the position of the reference whose `call_id`
matched: on an ended call update that reference and run the
all-references-done rollup; on a failed/errored poll mark the reference
failed without running the rollup; otherwise change nothing. -/
def check_call_status (candidate : Candidate) (i : Nat) (call_data : CallData)
    (env : CallEnv) : Candidate :=
  match candidate.references.get? i with
  | none => candidate
  | some reference =>
    if call_data.call_status == "ended" then
      let refs := candidate.references.set i (handle_ended_call reference candidate.name call_data env)
      if all_references_done refs then
        { candidate with references := refs, status := "completed" }
      else
        { candidate with references := refs }
    else if call_data.call_status == "failed"
        || str_contains (str_lower call_data.call_status) "error" then
      { candidate with references := candidate.references.set i { reference with status := "failed" } }
    else candidate

/-- Embedding of `add_reference` (app.py lines 537-573): a new Reference row is
created with `status="pending"` and the default column values of the model; the
own `status` of the Candidate is not touched. -/
def add_reference (candidate : Candidate) (name phone contact_method : String) :
    Candidate :=
  { candidate with references := candidate.references ++ [{
      name := name, phone := phone, candidate_user_id := none,
      contact_method := contact_method, status := "pending",
      survey_status := "not_sent", call_id := none,
      sms_sent := false, sms_sent_at := none, sms_response := none,
      callback_status := "none", callback_scheduled_time := none,
      callback_timezone := none, sms_conversation := [],
      callback_expires_at := none, notes := none, score := none,
      transcript := none, summary := none, sentiment := none,
      red_flags := none, discrepancies := none,
      achievements_verified := none, achievements_not_verified := none,
      positive_signals := none, structured_data := none,
      updated_at := none, completed_at := none }] }

/-- Ambient inputs of one `process_scheduled_callbacks` sweep: whether
a job row exists for the due reference, and the answer of the voice provider
to `initiate_vapi_call_global` (an error string, or a fresh call id). -/
structure SweepEnv where
  job_present : Bool
  call_error : Option String
  new_call_id : Option String
deriving DecidableEq

/-- Python `reference.notes = (reference.notes or "") + s`. -/
def notes_append (r : Reference) (s : String) : Reference :=
  { r with notes := some (r.notes.getD "" ++ s) }

/-- The due-callback phase of `process_scheduled_callbacks` (app.py
lines 1718-1755) on one reference: fires only on
`callback_status == "confirmed"` with a due `callback_scheduled_time`. -/
def process_due_callback (env : SweepEnv) (now : Nat) (r : Reference) : Reference :=
  if r.callback_status == "confirmed"
      && (match r.callback_scheduled_time with
          | some t => decide (t ≤ now)
          | none => false) then
    if !env.job_present then
      notes_append { r with callback_status := "completed" } " | Callback skipped: no job info"
    else
      let r := { r with callback_status := "callback_due", status := "calling" }
      match env.call_error with
      | some err =>
        notes_append { r with status := "failed", callback_status := "completed" }
          (" | Callback failed: " ++ err)
      | none => { r with call_id := env.new_call_id, callback_status := "completed" }
  else r

/-- The expiry phase of `process_scheduled_callbacks` (app.py lines
1757-1766) on one reference: a pure time comparison against
`callback_expires_at`, restricted to `awaiting_reply`/`time_proposed`. -/
def expire_callback (now : Nat) (r : Reference) : Reference :=
  if (r.callback_status == "awaiting_reply" || r.callback_status == "time_proposed")
      && (match r.callback_expires_at with
          | some t => decide (t ≤ now)
          | none => false) then
    notes_append { r with callback_status := "expired" }
      " | Callback expired: no confirmation within 24 hours"
  else r

/-- Embedding of `process_scheduled_callbacks` (app.py lines 1712-1772): the
due-callback loop commits before the expiry query runs, so the sweep is
the two per-row phases in sequence over the table. -/
def process_scheduled_callbacks (env : SweepEnv) (now : Nat) (refs : List Reference) :
    List Reference :=
  (refs.map (process_due_callback env now)).map (expire_callback now)

/-- The structured result of `parse_callback_time_with_claude`
(services.py lines 1274-1343): `has_error` is the Python truthiness of
`parsed.get("error")` (provider failure), the other fields mirror the
JSON contract of the prompt; `datetime_iso` is the parsed instant. -/
structure ParsedTime where
  has_error : Bool
  parsed_successfully : Bool
  needs_clarification : Bool
  clarification_question : Option String
  timezone : Option String
  timezone_assumed : Bool
  datetime_iso : Option Nat
  friendly_time : Option String
deriving DecidableEq

/-- Python truthiness of an optional string (`None` and `""` are
falsy). -/
def py_truthy_str (s : Option String) : Bool :=
  match s with
  | some v => v != ""
  | none => false

/-- Python `s or d` for an optional string with default `d`. -/
def py_str_or (s : Option String) (d : String) : String :=
  match s with
  | some v => if v == "" then d else v
  | none => d

/-- Timestamp rendering standing for
`strftime("%A, %B %d at %I:%M %p")`: the calendar formatting itself is
presentation-only, so the instant is rendered by its numeral. -/
def strftime_readable (t : Nat) : String :=
  toString t

/-- The `callback_status == "awaiting_reply"` arm of `sms_webhook`
(app.py lines 1635-1680): parse the body as a proposed time and either
ask again, record a decline, ask for clarification, or propose the
parsed time (defaulting the timezone to EST). -/
def handle_sms_awaiting (r : Reference) (body : String) (parsed : ParsedTime)
    (now : Nat) : Reference :=
  if parsed.has_error then
    add_to_sms_conversation r "outbound"
      "Sorry, I didn\x27t understand. Please reply with a day and time like \x27Tomorrow at 3pm EST\x27." now
  else if !parsed.parsed_successfully then
    { r with callback_status := "none",
             notes := some ("Reference declined or sent unclear response: " ++ body) }
  else if parsed.needs_clarification then
    let question := parsed.clarification_question.getD "What timezone are you in? (e.g., EST, PST)"
    add_to_sms_conversation r "outbound" question now
  else if !py_truthy_str parsed.timezone || parsed.timezone_assumed then
    let friendly_time := parsed.friendly_time.getD "the suggested time"
    let friendly_time := if !str_contains friendly_time "EST" && !str_contains friendly_time "PST"
      then friendly_time ++ " EST" else friendly_time
    let r := { r with
      callback_timezone := some (py_str_or parsed.timezone "EST"),
      callback_scheduled_time := parsed.datetime_iso,
      callback_status := "time_proposed" }
    add_to_sms_conversation r "outbound"
      ("Great! We\x27ll call you on " ++ friendly_time ++ ". Reply YES to confirm or suggest another time.") now
  else
    let friendly_time := parsed.friendly_time.getD "the suggested time"
    let r := { r with
      callback_timezone := parsed.timezone,
      callback_scheduled_time := parsed.datetime_iso,
      callback_status := "time_proposed" }
    add_to_sms_conversation r "outbound"
      ("Great! We\x27ll call you on " ++ friendly_time ++ ". Reply YES to confirm or suggest another time.") now

/-- The affirmative-token vocabulary of the `time_proposed` arm
(app.py line 1685), verbatim. -/
def affirmative_tokens : List String :=
  ["yes", "y", "yep", "yeah", "sure", "ok", "okay", "confirm", "confirmed"]

/-- The `callback_status == "time_proposed"` arm of `sms_webhook`
(app.py lines 1682-1704): an affirmative body confirms the proposal;
any other body re-enters the parse-and-propose flow. -/
def handle_sms_time_proposed (r : Reference) (body : String) (parsed : ParsedTime)
    (now : Nat) : Reference :=
  let body_lower := str_strip (str_lower body)
  if affirmative_tokens.contains body_lower then
    let r := { r with callback_status := "confirmed" }
    let friendly_time := match r.callback_scheduled_time with
      | some t => strftime_readable t ++ " " ++ r.callback_timezone.getD "None"
      | none => "the scheduled time"
    add_to_sms_conversation r "outbound"
      ("Confirmed! We\x27ll call you on " ++ friendly_time ++ ". Thank you!") now
  else
    let r := { r with callback_status := "awaiting_reply" }
    if parsed.parsed_successfully && parsed.datetime_iso.isSome then
      let friendly_time := parsed.friendly_time.getD "the suggested time"
      let r := { r with
        callback_timezone := some (py_str_or parsed.timezone "EST"),
        callback_scheduled_time := parsed.datetime_iso,
        callback_status := "time_proposed" }
      add_to_sms_conversation r "outbound"
        ("Great! We\x27ll call you on " ++ friendly_time ++ ". Reply YES to confirm or suggest another time.") now
    else r

/-- The per-reference body of the `sms_webhook` loop (app.py lines
1623-1707): log the inbound message, then dispatch on
`callback_status`; `parsed` is the single
`parse_callback_time_with_claude` answer for this body. -/
def sms_webhook_ref (r : Reference) (body : String) (parsed : ParsedTime) (now : Nat) :
    Reference :=
  let r := add_to_sms_conversation r "inbound" body now
  let r := { r with sms_response := some body, updated_at := some now }
  if r.callback_status == "awaiting_reply" then
    handle_sms_awaiting r body parsed now
  else if r.callback_status == "time_proposed" then
    handle_sms_time_proposed r body parsed now
  else r

/-- Embedding of
`from_number[-10:] if len(from_number) >= 10 else from_number`
(app.py line 1617): the last ten characters of the sender number. -/
def normalize_from (from_number : String) : String :=
  if from_number.length ≥ 10 then
    String.mk (from_number.toList.drop (from_number.length - 10))
  else from_number

/-- The `Reference.phone.endswith(normalized)` filter of the query of the webhook (app.py lines 1619-1621). -/
def sms_matches (normalized : String) (r : Reference) : Bool :=
  str_ends_with r.phone normalized

/-- The webhook loop over the matching references (app.py lines
1623-1707): skip rows whose candidate has no `user_id`, process the
first remaining row, and `break`. -/
def sms_webhook_go (body : String) (parsed : ParsedTime) (now : Nat) (normalized : String) :
    List Reference → List Reference
  | [] => []
  | r :: rest =>
    if !sms_matches normalized r then r :: sms_webhook_go body parsed now normalized rest
    else if r.candidate_user_id.isNone then r :: sms_webhook_go body parsed now normalized rest
    else sms_webhook_ref r body parsed now :: rest

/-- Embedding of `sms_webhook` (app.py lines 1610-1709) over the whole References
table, in table order. -/
def sms_webhook (from_number raw_body : String) (parsed : ParsedTime) (now : Nat)
    (refs : List Reference) : List Reference :=
  sms_webhook_go (str_strip raw_body) parsed now (normalize_from from_number) refs

/-- The first row the webhook will actually mutate: the first match of
the phone filter whose candidate has a `user_id`. -/
def sms_target (normalized : String) : List Reference → Option Nat
  | [] => none
  | r :: rest =>
    if sms_matches normalized r && r.candidate_user_id.isSome then some 0
    else (sms_target normalized rest).map (fun j => j + 1)

/-- The identification of the matching rows used by the claim: the last ten
digits of the sender number (rather than its last ten characters). -/
def last_ten_digits (from_number : String) : String :=
  let d := extract_digits from_number
  if d.length ≥ 10 then String.mk (d.toList.drop (d.length - 10)) else d

/-- A `ReferenceRequest` row (models.py lines 561-607), restricted to
the fields `is_valid` reads and writes. -/
structure ReferenceRequest where
  status : String
  expires_at : Nat
deriving DecidableEq

/-- Embedding of `ReferenceRequest.is_valid` (models.py lines 587-594): a
side-effecting read, returning the validity verdict together with the
possibly-updated row. -/
def ReferenceRequest.is_valid (r : ReferenceRequest) (now : Nat) :
    Bool × ReferenceRequest :=
  if r.status != "pending" then (false, r)
  else if now > r.expires_at then (false, { r with status := "expired" })
  else (true, r)

/-- A `SurveyRequest` row (models.py lines 610-648), restricted to the
fields the survey flow reads and writes. -/
structure SurveyRequest where
  status : String
  expires_at : Nat
  completed_at : Option Nat
  survey_score : Option Int
  survey_summary : Option String
  survey_red_flags : Option (List String)
deriving DecidableEq

/-- Embedding of `SurveyRequest.is_valid` (models.py lines 641-648): textually the
same side-effecting read as `ReferenceRequest.is_valid`. -/
def SurveyRequest.is_valid (r : SurveyRequest) (now : Nat) :
    Bool × SurveyRequest :=
  if r.status != "pending" then (false, r)
  else if now > r.expires_at then (false, { r with status := "expired" })
  else (true, r)

/-- A `SurveyQuestion` row (models.py): its id (a UUID string), its
`response_type` and whether it is `required`. -/
structure SurveyQuestion where
  id : String
  response_type : String
  required : Bool
deriving DecidableEq

/-- A `SurveyResponse` row as constructed by `submit_survey`. -/
structure SurveyResponse where
  survey_question_id : String
  rating : Option Int
  text_response : Option String
  selected_option : Option String
deriving DecidableEq

/-- The submitted form of `submit_survey`: association lists from
question id to the `q_<id>_rating` / `q_<id>_option` / `q_<id>_text`
fields. A rating entry is the parsed `int(...)` of a present, nonempty
rating field (the Python `int()` call aborting on a non-numeric string is
outside the model); absent or empty fields are absent keys. -/
structure SurveyForm where
  ratings : List (String × Int)
  options : List (String × String)
  texts : List (String × String)
deriving DecidableEq

/-- Association-list lookup for form fields. -/
def form_lookup {α : Type} (l : List (String × α)) (id : String) : Option α :=
  (l.find? (fun e => e.1 == id)).map (fun e => e.2)

/-- The `response_data` computed for one question (app.py lines
1528-1538): the type-appropriate field of the submitted form,
`free_text` stripped, `multiple_choice` taken as submitted, other
response types collecting nothing. -/
def question_response (form : SurveyForm) (q : SurveyQuestion) : SurveyResponse :=
  if q.response_type == "rating" then
    { survey_question_id := q.id, rating := form_lookup form.ratings q.id,
      text_response := none, selected_option := none }
  else if q.response_type == "multiple_choice" then
    { survey_question_id := q.id, rating := none, text_response := none,
      selected_option := form_lookup form.options q.id }
  else if q.response_type == "free_text" then
    { survey_question_id := q.id, rating := none,
      text_response := some (str_strip ((form_lookup form.texts q.id).getD "")),
      selected_option := none }
  else
    { survey_question_id := q.id, rating := none, text_response := none,
      selected_option := none }

/-- Python truthiness of
`response_data.get("rating") or response_data.get("selected_option")
or response_data.get("text_response")` (app.py lines 1541-1546); the
same truthiness decides `any(response_data.values())` for persistence. -/
def has_response (resp : SurveyResponse) : Bool :=
  (match resp.rating with | some n => decide (n ≠ 0) | none => false)
  || (match resp.selected_option with | some s => s != "" | none => false)
  || (match resp.text_response with | some s => s != "" | none => false)

/-- The `submit_survey` question loop (app.py lines 1528-1563): reject
at the first required question without a type-appropriate response
(`none`), otherwise return exactly the responses that will be
persisted. -/
def collect_responses (form : SurveyForm) : List SurveyQuestion → Option (List SurveyResponse)
  | [] => some []
  | q :: qs =>
    let resp := question_response form q
    if q.required && !has_response resp then none
    else
      match collect_responses form qs with
      | none => none
      | some rest => some (if has_response resp then resp :: rest else rest)

/-- Outcome of one `submit_survey` POST: the expired/invalid-token
page, the re-rendered form with the validation error, or the completed
submission with the rows it persists. -/
inductive SubmitResult where
  | invalid_token (sr : SurveyRequest)
  | rejected (error_message : String) (sr : SurveyRequest) (ref : Reference)
      (questions : List SurveyQuestion)
  | completed (responses : List SurveyResponse) (sr : SurveyRequest) (ref : Reference)
deriving DecidableEq

/-- Embedding of `submit_survey` (app.py lines 1512-1570, before the post-commit
survey analysis): validate the token, run the question loop, and only
on a full submission mark the SurveyRequest completed and the Reference
field `survey_status` completed; a rejected submission re-renders the form
with a fixed error string, commits nothing, and leaves both rows as
they were. -/
def submit_survey (sr : SurveyRequest) (ref : Reference) (questions : List SurveyQuestion)
    (form : SurveyForm) (now : Nat) : SubmitResult :=
  let v := sr.is_valid now
  if !v.1 then SubmitResult.invalid_token v.2
  else
    match collect_responses form questions with
    | none => SubmitResult.rejected "Please answer all required questions." sr ref questions
    | some responses =>
        SubmitResult.completed responses
          { sr with status := "completed", completed_at := some now }
          { ref with survey_status := "completed" }

/-- The unsuccessful-ended-call condition exactly as claim C1 words it:
the lowercased ended reason contains one of the fixed vocabulary
tokens, or the stripped transcript is shorter than 100 characters and
the lowercased ended reason does not contain "hangup". -/
def spec_unsuccessful_call (cd : CallData) : Prop :=
  (∃ tok ∈ unsuccessful_reasons, str_contains (str_lower cd.endedReason) tok = true)
  ∨ ((str_strip cd.transcript).length < 100
      ∧ ¬ str_contains (str_lower cd.endedReason) "hangup" = true)

/-- A reference row as it enters the ended-call handler. -/
def sample_ref : Reference :=
  { name := "Jane Doe", phone := "5551234567", candidate_user_id := some 1,
    contact_method := "call_only", status := "calling", survey_status := "not_sent",
    call_id := some "call-1", sms_sent := false, sms_sent_at := none,
    sms_response := none, callback_status := "none", callback_scheduled_time := none,
    callback_timezone := none, sms_conversation := [], callback_expires_at := none,
    notes := none, score := none, transcript := none, summary := none,
    sentiment := none, red_flags := none, discrepancies := none,
    achievements_verified := none, achievements_not_verified := none,
    positive_signals := none, structured_data := none, updated_at := none,
    completed_at := none }

/-- A concrete successful analysis result. -/
def sample_analysis : Analysis :=
  { employment_confirmed := some true, dates_accurate := some true,
    title_confirmed := some true, would_rehire := some true,
    achievements_verified := ["led the team"], achievements_not_verified := [],
    discrepancies := [], red_flags := [], positive_signals := ["reliable"],
    overall_sentiment := some "positive", summary := some "solid reference" }

/-- An ended call that classifies as successful (reason contains
"hangup", so the short transcript does not demote it). -/
def ended_ok_call : CallData :=
  { call_status := "ended", endedReason := "hangup", transcript := "hi",
    recordingUrl := none }

/-- A request environment in which analysis succeeds. -/
def ok_env : CallEnv :=
  { twilio_configured := false, sms_send_success := false, job_present := true,
    analysis := some sample_analysis, now := 0 }

/-- An ended call that classifies as unsuccessful. -/
def noanswer_call : CallData :=
  { call_status := "ended", endedReason := "customer-did-not-answer",
    transcript := "", recordingUrl := none }

/-- An environment with Twilio configured and a successful SMS send. -/
def sms_env : CallEnv :=
  { twilio_configured := true, sms_send_success := true, job_present := false,
    analysis := none, now := 1000 }

/-- A reference waiting for an SMS reply with an expiry horizon. -/
def awaiting_ref : Reference :=
  { sample_ref with callback_status := "awaiting_reply", callback_expires_at := some 500 }

/-- A candidate with one reference whose call is being polled. -/
def sample_candidate : Candidate :=
  { name := "Carl", status := "in_progress", references := [sample_ref] }

/-- A reference with a pending time proposal. -/
def proposed_ref : Reference :=
  { sample_ref with
    callback_status := "time_proposed",
    callback_scheduled_time := some 2000, callback_timezone := some "EST" }

/-- A parse-oracle answer that extracts nothing. -/
def no_parse : ParsedTime :=
  { has_error := false, parsed_successfully := false, needs_clarification := false,
    clarification_question := none, timezone := none, timezone_assumed := false,
    datetime_iso := none, friendly_time := none }

/-- A pending reference request expiring at time 100. -/
def sample_rr : ReferenceRequest := { status := "pending", expires_at := 100 }

/-- A pending survey request expiring at time 100. -/
def sample_sr : SurveyRequest :=
  { status := "pending", expires_at := 100, completed_at := none,
    survey_score := none, survey_summary := none, survey_red_flags := none }

/-- A required free-text question. -/
def q1 : SurveyQuestion := { id := "q1", response_type := "free_text", required := true }

/-- A second required free-text question. -/
def q2 : SurveyQuestion := { id := "q2", response_type := "free_text", required := true }

/-- A form answering only the first question. -/
def formA : SurveyForm := { ratings := [], options := [], texts := [("q1", "fine")] }

/-- A form answering only the second question. -/
def formB : SurveyForm := { ratings := [], options := [], texts := [("q2", "fine")] }

/-- Claim C2: `calculate_verification_score` equals the reference
formula of the specification, and its result is always an integer in
[0, 100]; as a pure Lean function it is deterministic by construction. -/
theorem calculate_verification_score_spec (a : Analysis) :
    calculate_verification_score a = spec_score a ∧
    0 ≤ calculate_verification_score a ∧
    calculate_verification_score a ≤ 100 := by
  refine ⟨?_, ?_, ?_⟩
  · simp only [calculate_verification_score, spec_score]
    omega
  · simp only [calculate_verification_score]
    exact le_max_left 0 _
  · simp only [calculate_verification_score]
    exact max_le (by norm_num) (min_le_left 100 _)

/-- Claim C9: `format_phone_e164` implements exactly the digit-sequence
normalization rules of the specification, and the four documented
examples normalize as stated. -/
theorem format_phone_e164_spec :
    (∀ phone : String, format_phone_e164 phone = spec_format_phone phone) ∧
    format_phone_e164 "5551234567" = "+15551234567" ∧
    format_phone_e164 "15551234567" = "+15551234567" ∧
    format_phone_e164 "+15551234567" = "+15551234567" ∧
    format_phone_e164 "445551234567" = "+445551234567" := by
  refine ⟨fun phone => ?_, by decide, by decide, by decide, by decide⟩
  simp only [format_phone_e164, spec_format_phone]
  split
  · rfl
  · split
    · rfl
    · split
      · rfl
      · by_cases h : str_starts_with phone "+" = true <;> simp [h]

/-- The status an ended call leaves on the reference: the branch
condition of `handle_ended_call`, read off its control flow. -/
theorem handle_ended_call_status (r : Reference) (cn : String)
    (cd : CallData) (env : CallEnv) :
    (handle_ended_call r cn cd env).status =
      (if (unsuccessful_reasons.any
            (fun reason => str_contains (str_lower cd.endedReason) reason)
          || (decide ((str_strip cd.transcript).length < 100)
              && !str_contains (str_lower cd.endedReason) "hangup"))
        then "no_answer" else "completed") := by
  simp only [handle_ended_call, add_to_sms_conversation]
  split
  · split
    · split <;> rfl
    · rfl
  · split
    · split <;> rfl
    · rfl

/-- Claim C1: on an ended call, the Reference status becomes
`no_answer` exactly when the unsuccessful-outcome condition of the claim
holds, and `completed` in every other ended case (the analysis that
then proceeds is the subject of the C6 theorem). -/
theorem check_call_status_classification (r : Reference) (cn : String)
    (cd : CallData) (env : CallEnv) :
    ((handle_ended_call r cn cd env).status = "no_answer" ↔ spec_unsuccessful_call cd) ∧
    ((handle_ended_call r cn cd env).status = "completed" ↔ ¬ spec_unsuccessful_call cd) := by
  have hcond : (unsuccessful_reasons.any
        (fun reason => str_contains (str_lower cd.endedReason) reason)
      || (decide ((str_strip cd.transcript).length < 100)
          && !str_contains (str_lower cd.endedReason) "hangup")) = true
      ↔ spec_unsuccessful_call cd := by
    simp [spec_unsuccessful_call, List.any_eq_true]
  rw [handle_ended_call_status r cn cd env]
  by_cases h : (unsuccessful_reasons.any
        (fun reason => str_contains (str_lower cd.endedReason) reason)
      || (decide ((str_strip cd.transcript).length < 100)
          && !str_contains (str_lower cd.endedReason) "hangup")) = true
  · have hs := hcond.mp h
    constructor
    · simp only [h, if_true]
      exact ⟨fun _ => hs, fun _ => True.intro⟩
    · simp only [h, if_true]
      constructor
      · intro hc; exact absurd hc (by decide)
      · intro hn; exact absurd hs hn
  · have hs : ¬ spec_unsuccessful_call cd := fun hx => h (hcond.mpr hx)
    rw [if_neg (by simpa using h)]
    constructor
    · constructor
      · intro hc; exact absurd hc (by decide)
      · intro hx; exact absurd hx hs
    · exact ⟨fun _ => hs, fun _ => rfl⟩

/-- The score an ended call leaves on the reference, read off the
control flow of `handle_ended_call`: untouched on an unsuccessful
call, and written only when a job was found, the transcript is
nonempty, and the analysis produced a result. -/
theorem handle_ended_call_score (r : Reference) (cn : String)
    (cd : CallData) (env : CallEnv) :
    (handle_ended_call r cn cd env).score =
      (if (unsuccessful_reasons.any
            (fun reason => str_contains (str_lower cd.endedReason) reason)
          || (decide ((str_strip cd.transcript).length < 100)
              && !str_contains (str_lower cd.endedReason) "hangup"))
        then r.score
        else if env.job_present && cd.transcript != "" then
          (match env.analysis with
            | some a => some (calculate_verification_score a)
            | none => r.score)
        else r.score) := by
  simp only [handle_ended_call, add_to_sms_conversation]
  split
  · split
    · split <;> rfl
    · rfl
  · split
    · split <;> rfl
    · rfl

/-- The SMS webhook never touches `score`. -/
theorem sms_webhook_ref_score (r : Reference) (body : String)
    (parsed : ParsedTime) (now : Nat) :
    (sms_webhook_ref r body parsed now).score = r.score := by
  simp only [sms_webhook_ref, handle_sms_awaiting, handle_sms_time_proposed,
    add_to_sms_conversation]
  repeat' split
  all_goals rfl

/-- The due-callback phase never touches `score`. -/
theorem process_due_callback_score (senv : SweepEnv) (now : Nat) (r : Reference) :
    (process_due_callback senv now r).score = r.score := by
  simp only [process_due_callback, notes_append]
  repeat' split
  all_goals rfl

/-- The expiry phase never touches `score`. -/
theorem expire_callback_score (now : Nat) (r : Reference) :
    (expire_callback now r).score = r.score := by
  simp only [expire_callback, notes_append]
  repeat' split
  all_goals rfl

/-- Claim C6: starting from an unscored reference, the ended-call
transition writes `score` exactly when the reference lands in
`completed` with a found job, a nonempty transcript and a successful
analysis (in which case the score is the computed verification score);
the SMS webhook and both sweep phases never write `score`. -/
theorem reference_score_invariant (r : Reference) (cn : String) (cd : CallData)
    (env : CallEnv) (h : r.score = none) :
    ((handle_ended_call r cn cd env).score.isSome = true ↔
      ((handle_ended_call r cn cd env).status = "completed" ∧ env.job_present = true ∧
        cd.transcript ≠ "" ∧ env.analysis.isSome = true)) ∧
    (∀ a : Analysis, env.analysis = some a →
      (handle_ended_call r cn cd env).status = "completed" →
      env.job_present = true → cd.transcript ≠ "" →
      (handle_ended_call r cn cd env).score = some (calculate_verification_score a)) ∧
    (∀ body parsed now, (sms_webhook_ref r body parsed now).score = r.score) ∧
    (∀ senv now, (process_due_callback senv now r).score = r.score) ∧
    (∀ now, (expire_callback now r).score = r.score) := by
  refine ⟨?_, ?_, fun body parsed now => sms_webhook_ref_score r body parsed now,
    fun senv now => process_due_callback_score senv now r,
    fun now => expire_callback_score now r⟩
  · rw [handle_ended_call_score r cn cd env, handle_ended_call_status r cn cd env]
    by_cases hc : (unsuccessful_reasons.any
        (fun reason => str_contains (str_lower cd.endedReason) reason)
      || (decide ((str_strip cd.transcript).length < 100)
          && !str_contains (str_lower cd.endedReason) "hangup")) = true
    · simp [hc, h]
    · simp only [hc, if_false, Bool.false_eq_true]
      by_cases hj : env.job_present = true
      · by_cases ht : cd.transcript = ""
        · simp [hj, ht, h]
        · cases ha : env.analysis with
          | none => simp [hj, ht, ha, h]
          | some a => simp [hj, ht, ha]
      · simp only [Bool.not_eq_true] at hj
        simp [hj, h]
  · intro a ha hst hj ht
    rw [handle_ended_call_score r cn cd env]
    have hc : ¬ ((unsuccessful_reasons.any
        (fun reason => str_contains (str_lower cd.endedReason) reason)
      || (decide ((str_strip cd.transcript).length < 100)
          && !str_contains (str_lower cd.endedReason) "hangup")) = true) := by
      intro hcc
      have h2 := handle_ended_call_status r cn cd env
      rw [if_pos hcc] at h2
      rw [h2] at hst
      exact absurd hst (by decide)
    rw [if_neg hc, if_pos (by simp [hj, ht]), ha]

/-- Witness for C6: a concrete ended call on an unscored reference, in
an environment where analysis succeeds, yields a written score. -/
theorem reference_score_invariant_witness :
    (handle_ended_call sample_ref "Jane" ended_ok_call ok_env).score.isSome = true :=
  (reference_score_invariant sample_ref "Jane" ended_ok_call ok_env rfl).1.mpr
    ⟨by decide, rfl, by decide, rfl⟩

/-- The ended-call branch condition as a reusable equivalence with the
claim-worded predicate. -/
theorem unsuccessful_cond_iff (cd : CallData) :
    ((unsuccessful_reasons.any
        (fun reason => str_contains (str_lower cd.endedReason) reason)
      || (decide ((str_strip cd.transcript).length < 100)
          && !str_contains (str_lower cd.endedReason) "hangup")) = true)
      ↔ spec_unsuccessful_call cd := by
  simp [spec_unsuccessful_call, List.any_eq_true]

/-- The due-callback phase skips any reference that is not in
`callback_status == "confirmed"`. -/
theorem process_due_callback_skip (senv : SweepEnv) (now : Nat) (x : Reference)
    (h : x.callback_status ≠ "confirmed") : process_due_callback senv now x = x := by
  unfold process_due_callback
  rw [if_neg]
  simp only [Bool.and_eq_true, beq_iff_eq]
  intro hc
  exact h hc.1

/-- The expiry phase skips any reference outside
`awaiting_reply`/`time_proposed`. -/
theorem expire_callback_skip (now : Nat) (x : Reference)
    (h1 : x.callback_status ≠ "awaiting_reply")
    (h2 : x.callback_status ≠ "time_proposed") : expire_callback now x = x := by
  unfold expire_callback
  rw [if_neg]
  simp only [Bool.and_eq_true, Bool.or_eq_true, beq_iff_eq]
  intro hc
  rcases hc.1 with h | h
  exacts [h1 h, h2 h]

/-- The expiry phase expires a reference in
`awaiting_reply`/`time_proposed` whose horizon has passed. -/
theorem expire_callback_fires (now : Nat) (x : Reference)
    (h : x.callback_status = "awaiting_reply" ∨ x.callback_status = "time_proposed")
    (t : Nat) (ht : x.callback_expires_at = some t) (htn : t ≤ now) :
    (expire_callback now x).callback_status = "expired" := by
  unfold expire_callback
  rw [if_pos]
  · rfl
  · simp only [ht, Bool.and_eq_true, Bool.or_eq_true, beq_iff_eq, decide_eq_true_eq]
    exact ⟨h, htn⟩

/-- After the due-callback phase a reference either carries
`callback_status == "completed"` or is unchanged. -/
theorem process_due_callback_cases (senv : SweepEnv) (now : Nat) (x : Reference) :
    (process_due_callback senv now x).callback_status = "completed"
    ∨ process_due_callback senv now x = x := by
  simp only [process_due_callback, notes_append]
  split
  · split
    · left; rfl
    · split
      · left; rfl
      · left; rfl
  · right; rfl

/-- Claim C4: on the no-answer transition that sends the first
callback-request SMS, `callback_expires_at` is set to exactly 24 hours
after the recorded send time; and every sweep run at or past that
horizon moves each reference still in `awaiting_reply`/`time_proposed`
to `expired`, while references in any other callback state are never
expired by the sweep. -/
theorem callback_expiry_spec (r : Reference) (cn : String) (cd : CallData)
    (env : CallEnv) (h1 : r.sms_sent = false) (h2 : env.twilio_configured = true)
    (h3 : env.sms_send_success = true) (h4 : spec_unsuccessful_call cd) :
    ((handle_ended_call r cn cd env).sms_sent_at = some env.now ∧
     (handle_ended_call r cn cd env).callback_expires_at = some (env.now + 24 * 60 * 60)) ∧
    (∀ (senv : SweepEnv) (now : Nat) (refs : List Reference),
      process_scheduled_callbacks senv now refs =
        refs.map (fun x => expire_callback now (process_due_callback senv now x)) ∧
      (∀ x : Reference,
        ((x.callback_status = "awaiting_reply" ∨ x.callback_status = "time_proposed") →
          ∀ t, x.callback_expires_at = some t → t ≤ now →
          (expire_callback now (process_due_callback senv now x)).callback_status = "expired") ∧
        (x.callback_status ≠ "awaiting_reply" → x.callback_status ≠ "time_proposed" →
          ((expire_callback now (process_due_callback senv now x)).callback_status = "expired" ↔
            x.callback_status = "expired")))) := by
  constructor
  · simp only [handle_ended_call, add_to_sms_conversation]
    rw [if_pos ((unsuccessful_cond_iff cd).mpr h4)]
    rw [if_pos (by simp [h1, h2]), if_pos h3]
    exact ⟨rfl, rfl⟩
  · intro senv now refs
    constructor
    · simp [process_scheduled_callbacks, List.map_map, Function.comp]
    · intro x
      constructor
      · intro hx t ht htn
        rw [process_due_callback_skip senv now x
          (by rcases hx with h | h <;> rw [h] <;> decide)]
        exact expire_callback_fires now x hx t ht htn
      · intro hna hnp
        rcases process_due_callback_cases senv now x with hc | hc
        · rw [expire_callback_skip now (process_due_callback senv now x)
            (by rw [hc]; decide) (by rw [hc]; decide), hc]
          constructor
          · intro hfalse; exact absurd hfalse (by decide)
          · intro hexp
            exfalso
            rw [process_due_callback_skip senv now x (by rw [hexp]; decide)] at hc
            rw [hexp] at hc
            exact absurd hc (by decide)
        · rw [hc, expire_callback_skip now x hna hnp]

/-- Witness for C4: the concrete no-answer call stamps the 24-hour
horizon, and a sweep past the horizon expires the concrete awaiting
reference. -/
theorem callback_expiry_spec_witness :
    (handle_ended_call sample_ref "Jane" noanswer_call sms_env).callback_expires_at
      = some (sms_env.now + 24 * 60 * 60) ∧
    (expire_callback 600 (process_due_callback
        { job_present := true, call_error := none, new_call_id := some "call-2" }
        600 awaiting_ref)).callback_status = "expired" := by
  have h := callback_expiry_spec sample_ref "Jane" noanswer_call sms_env rfl rfl rfl
    (Or.inl ⟨"customer-did-not-answer", by decide, by decide⟩)
  exact ⟨h.1.2,
    ((h.2 { job_present := true, call_error := none, new_call_id := some "call-2" }
        600 []).2 awaiting_ref).1 (Or.inl rfl) 500 rfl (by norm_num)⟩

/-- Claim C5: when an ended call settles a reference, the candidate
status is set to `completed` exactly when every sibling reference is
then in a terminal state, and is left unchanged otherwise; a
failed/errored status poll and `add_reference` never change the
candidate status, and a freshly added reference is `pending`, so the
rollup condition is false immediately after the addition. -/
theorem candidate_rollup_spec (cand : Candidate) (i : Nat) (cd : CallData)
    (env : CallEnv) :
    (∀ r, cand.references.get? i = some r → cd.call_status = "ended" →
      ((all_references_done
          (cand.references.set i (handle_ended_call r cand.name cd env)) = true →
        (check_call_status cand i cd env).status = "completed") ∧
       (all_references_done
          (cand.references.set i (handle_ended_call r cand.name cd env)) = false →
        (check_call_status cand i cd env).status = cand.status))) ∧
    (cd.call_status ≠ "ended" → (check_call_status cand i cd env).status = cand.status) ∧
    (∀ name phone cm,
      (add_reference cand name phone cm).status = cand.status ∧
      all_references_done (add_reference cand name phone cm).references = false) := by
  refine ⟨?_, ?_, ?_⟩
  · intro r hr he
    simp only [check_call_status, hr]
    rw [if_pos (by simp [he])]
    constructor
    · intro hall; rw [if_pos hall]
    · intro hall; rw [if_neg (by simp [hall])]
  · intro hne
    simp only [check_call_status]
    cases hr : cand.references.get? i with
    | none => rfl
    | some r =>
      dsimp only
      rw [if_neg (by simp [hne])]
      split
      · rfl
      · rfl
  · intro name phone cm
    refine ⟨rfl, ?_⟩
    simp [add_reference, all_references_done, List.all_append]

/-- Witness for C5: when the ended call of the sole reference settles it
into `completed`, the rollup flips the candidate to `completed`. -/
theorem candidate_rollup_spec_witness :
    (check_call_status sample_candidate 0 ended_ok_call ok_env).status = "completed" :=
  ((candidate_rollup_spec sample_candidate 0 ended_ok_call ok_env).1
    sample_ref rfl rfl).1 (by decide)

/-- Claim C3: while a proposal is pending, an inbound body confirms the
callback exactly when its lowercased, stripped form is one of the nine
affirmative tokens; any other body re-enters the parse-and-propose
branch, landing in `time_proposed` again only when the body parses as a
new time and otherwise staying in `awaiting_reply`. -/
theorem sms_affirmative_spec (r : Reference) (body : String) (parsed : ParsedTime)
    (now : Nat) (h : r.callback_status = "time_proposed") :
    ((sms_webhook_ref r body parsed now).callback_status = "confirmed" ↔
      str_strip (str_lower body) ∈ affirmative_tokens) ∧
    (str_strip (str_lower body) ∉ affirmative_tokens →
      (sms_webhook_ref r body parsed now).callback_status =
        (if parsed.parsed_successfully && parsed.datetime_iso.isSome
          then "time_proposed" else "awaiting_reply")) := by
  have hb : ∀ b : Bool, b = true ∨ b = false := fun b => by cases b <;> simp
  simp only [sms_webhook_ref, add_to_sms_conversation]
  rw [if_neg (by simp [h]), if_pos (by simp [h])]
  simp only [handle_sms_time_proposed, add_to_sms_conversation]
  by_cases hm : str_strip (str_lower body) ∈ affirmative_tokens
  · rw [if_pos (by simpa [List.elem_iff] using hm)]
    constructor
    · exact ⟨fun _ => hm, fun _ => rfl⟩
    · intro hnm; exact absurd hm hnm
  · rw [if_neg (by simpa [List.elem_iff] using hm)]
    constructor
    · constructor
      · intro hc
        exfalso
        revert hc
        split
        · simp
        · simp
      · intro hmm; exact absurd hmm hm
    · intro _
      split
      · rfl
      · rfl

/-- Witness for C3: the body "YES " confirms a pending proposal. -/
theorem sms_affirmative_spec_witness :
    (sms_webhook_ref proposed_ref "YES " no_parse 5).callback_status = "confirmed" :=
  ((sms_affirmative_spec proposed_ref "YES " no_parse 5 rfl).1).mpr (by decide)

/-- Amended claim C10: per inbound SMS delivery at most one Reference
row is mutated, namely the first row (in table order) whose stored
phone number ends with the last ten characters of the sender number
and whose candidate has a `user_id`; every other row is returned
unchanged. -/
theorem sms_webhook_frame (from_number raw_body : String) (parsed : ParsedTime)
    (now : Nat) (refs : List Reference) :
    (sms_target (normalize_from from_number) refs = none →
      sms_webhook from_number raw_body parsed now refs = refs) ∧
    (∀ i r, sms_target (normalize_from from_number) refs = some i →
      refs.get? i = some r →
      sms_webhook from_number raw_body parsed now refs =
        refs.set i (sms_webhook_ref r (str_strip raw_body) parsed now)) := by
  simp only [sms_webhook]
  induction refs with
  | nil =>
    constructor
    · intro _; rfl
    · intro i r hi _; simp [sms_target] at hi
  | cons x rest ih =>
    by_cases hq : (sms_matches (normalize_from from_number) x
        && x.candidate_user_id.isSome) = true
    · have hmm : sms_matches (normalize_from from_number) x = true :=
        ((Bool.and_eq_true _ _).mp hq).1
      have hus : x.candidate_user_id.isSome = true :=
        ((Bool.and_eq_true _ _).mp hq).2
      have hnone : x.candidate_user_id.isNone = false := by
        cases hcu : x.candidate_user_id
        · rw [hcu] at hus; exact absurd hus (by decide)
        · rfl
      have ht : sms_target (normalize_from from_number) (x :: rest) = some 0 := by
        simp [sms_target, hq]
      constructor
      · intro hn; rw [ht] at hn; exact absurd hn (by simp)
      · intro i r hi hr
        rw [ht] at hi
        have hi0 : (0 : Nat) = i := by injection hi
        subst hi0
        have hr0 : x = r := by
          have := hr
          simp only [List.get?] at this
          injection this
        subst hr0
        simp [sms_webhook_go, hmm, hnone]
    · have hskip : sms_webhook_go (str_strip raw_body) parsed now
          (normalize_from from_number) (x :: rest)
          = x :: sms_webhook_go (str_strip raw_body) parsed now
              (normalize_from from_number) rest := by
        simp only [sms_webhook_go]
        by_cases hm : sms_matches (normalize_from from_number) x = true
        · have hus : x.candidate_user_id.isSome = false := by
            cases hcu : x.candidate_user_id.isSome
            · rfl
            · exfalso; exact hq (by rw [hm, hcu]; rfl)
          have hnone : x.candidate_user_id.isNone = true := by
            cases hcu : x.candidate_user_id
            · rfl
            · rw [hcu] at hus; simp at hus
          simp [hm, hnone]
        · simp [hm]
      have htgt : sms_target (normalize_from from_number) (x :: rest)
          = (sms_target (normalize_from from_number) rest).map (fun j => j + 1) := by
        simp only [sms_target]
        rw [if_neg hq]
      constructor
      · intro hn
        rw [htgt] at hn
        have hrt : sms_target (normalize_from from_number) rest = none := by
          cases hrt : sms_target (normalize_from from_number) rest
          · rfl
          · rw [hrt] at hn; exact absurd hn (by simp)
        rw [hskip, ih.1 hrt]
      · intro i r hi hr
        rw [htgt] at hi
        cases hrt : sms_target (normalize_from from_number) rest with
        | none => rw [hrt] at hi; exact absurd hi (by simp)
        | some j =>
          rw [hrt] at hi
          have hij : j + 1 = i := by injection hi
          subst hij
          have hr2 : rest.get? j = some r := by simpa using hr
          rw [hskip, ih.2 j r hrt hr2]
          rfl

/-- Witness for the amended C10: with an E.164 sender the single
matching reference with a user is the one mutated. -/
theorem sms_webhook_frame_witness :
    sms_webhook "+15551234567" "hello" no_parse 7 [sample_ref] =
      [sms_webhook_ref sample_ref (str_strip "hello") no_parse 7] :=
  (sms_webhook_frame "+15551234567" "hello" no_parse 7 [sample_ref]).2 0 sample_ref
    (by decide) rfl

/-- Counterexample to C10 as stated: the webhook matches on the last
ten characters of the sender number, not on its last ten digits.
With sender "555*1234567", `sample_ref` is the first (and only)
reference whose phone ends with the last ten digits of the sender and whose
candidate has a user id, so the claim says its `sms_conversation` and
`sms_response` are updated; the code leaves the whole table unchanged,
and the update it would have applied is visibly different. -/
theorem sms_webhook_digits_cex :
    str_ends_with sample_ref.phone (last_ten_digits "555*1234567") = true ∧
    sample_ref.candidate_user_id.isSome = true ∧
    sms_webhook "555*1234567" "yes" no_parse 0 [sample_ref] = [sample_ref] ∧
    sms_webhook_ref sample_ref (str_strip "yes") no_parse 0 ≠ sample_ref := by
  refine ⟨by decide, by decide, ?_, by decide⟩
  decide

/-- Claim C7: for both token kinds, `is_valid` answers true exactly on
a pending row at or before `expires_at`; the first check past the
horizon answers false and flips the row to `expired`, and every later
check on the flipped row answers false and leaves it unchanged. -/
theorem token_validity_spec (rr : ReferenceRequest) (sr : SurveyRequest)
    (now later : Nat) :
    ((rr.is_valid now).1 = true ↔ rr.status = "pending" ∧ now ≤ rr.expires_at) ∧
    (rr.status = "pending" → rr.expires_at < now →
      rr.is_valid now = (false, { rr with status := "expired" }) ∧
      ReferenceRequest.is_valid { rr with status := "expired" } later =
        (false, { rr with status := "expired" })) ∧
    ((sr.is_valid now).1 = true ↔ sr.status = "pending" ∧ now ≤ sr.expires_at) ∧
    (sr.status = "pending" → sr.expires_at < now →
      sr.is_valid now = (false, { sr with status := "expired" }) ∧
      SurveyRequest.is_valid { sr with status := "expired" } later =
        (false, { sr with status := "expired" })) := by
  refine ⟨?_, ?_, ?_, ?_⟩
  · simp only [ReferenceRequest.is_valid]
    by_cases hp : rr.status = "pending"
    · rw [if_neg (by simp [hp])]
      by_cases he : now > rr.expires_at
      · rw [if_pos he]
        simp
        omega
      · rw [if_neg he]
        simp [hp]
        omega
    · rw [if_pos (by simp [hp])]
      simp [hp]
  · intro hp he
    constructor
    · simp only [ReferenceRequest.is_valid]
      rw [if_neg (by simp [hp]), if_pos (by omega)]
    · simp only [ReferenceRequest.is_valid]
      rw [if_pos (by simp)]
  · simp only [SurveyRequest.is_valid]
    by_cases hp : sr.status = "pending"
    · rw [if_neg (by simp [hp])]
      by_cases he : now > sr.expires_at
      · rw [if_pos he]
        simp
        omega
      · rw [if_neg he]
        simp [hp]
        omega
    · rw [if_pos (by simp [hp])]
      simp [hp]
  · intro hp he
    constructor
    · simp only [SurveyRequest.is_valid]
      rw [if_neg (by simp [hp]), if_pos (by omega)]
    · simp only [SurveyRequest.is_valid]
      rw [if_pos (by simp)]

/-- Witness for C7: a check at time 101 flips both concrete rows to
`expired`, and a later check at time 500 answers false without further
change. -/
theorem token_validity_spec_witness :
    sample_rr.is_valid 101 = (false, { sample_rr with status := "expired" }) ∧
    SurveyRequest.is_valid { sample_sr with status := "expired" } 500 =
      (false, { sample_sr with status := "expired" }) := by
  have h := token_validity_spec sample_rr sample_sr 101 500
  exact ⟨(h.2.1 rfl (by decide)).1, (h.2.2.2 rfl (by decide)).2⟩

/-- The question loop rejects exactly when some required question lacks
a type-appropriate nonempty response. -/
theorem collect_responses_eq_none (form : SurveyForm) (qs : List SurveyQuestion) :
    collect_responses form qs = none ↔
      ∃ q ∈ qs, q.required = true ∧ has_response (question_response form q) = false := by
  induction qs with
  | nil => simp [collect_responses]
  | cons q rest ih =>
    simp only [collect_responses]
    by_cases hq : (q.required && !has_response (question_response form q)) = true
    · rw [if_pos hq]
      have h2 := (Bool.and_eq_true _ _).mp hq
      constructor
      · intro _
        exact ⟨q, List.mem_cons_self q rest, h2.1, by simpa using h2.2⟩
      · intro _; rfl
    · rw [if_neg hq]
      have hqn : ¬(q.required = true ∧ has_response (question_response form q) = false) := by
        intro ⟨ha, hb⟩
        exact hq (by rw [ha, hb]; rfl)
      cases hc : collect_responses form rest with
      | none =>
        rw [hc] at ih
        simp only [true_iff] at ih
        constructor
        · intro _
          obtain ⟨q2, hm, hr⟩ := ih
          exact ⟨q2, List.mem_cons_of_mem q hm, hr⟩
        · intro _; rfl
      | some rs =>
        rw [hc] at ih
        constructor
        · intro hcc; exact absurd hcc (by simp)
        · intro ⟨q2, hm, hr⟩
          rcases List.mem_cons.mp hm with he | hm2
          · subst he; exact absurd hr hqn
          · exact absurd (ih.mpr ⟨q2, hm2, hr⟩) (by simp)

/-- Amended claim C8: a submission on a valid token is rejected — with
a fixed, generic validation message, the offending question not being
identified in the response — exactly when some required question lacks
a nonempty response of its type-appropriate field; the rejection
carries the SurveyRequest and Reference rows unchanged and persists no
responses, and a submission answering every required question is the
only way to mark the SurveyRequest and the Reference survey status
`completed`. -/
theorem submit_survey_required_spec (sr : SurveyRequest) (ref : Reference)
    (qs : List SurveyQuestion) (form : SurveyForm) (now : Nat)
    (hv : (sr.is_valid now).1 = true) :
    ((∃ q ∈ qs, q.required = true ∧ has_response (question_response form q) = false) →
      submit_survey sr ref qs form now =
        SubmitResult.rejected "Please answer all required questions." sr ref qs) ∧
    ((∀ q ∈ qs, q.required = true → has_response (question_response form q) = true) →
      ∃ rs, collect_responses form qs = some rs ∧
        submit_survey sr ref qs form now =
          SubmitResult.completed rs
            { sr with status := "completed", completed_at := some now }
            { ref with survey_status := "completed" }) := by
  constructor
  · intro hmiss
    have hc : collect_responses form qs = none :=
      (collect_responses_eq_none form qs).mpr hmiss
    simp only [submit_survey, hv, Bool.not_true, if_false, hc]
    rfl
  · intro hall
    have hc : collect_responses form qs ≠ none := by
      intro hn
      obtain ⟨q, hm, hr, hnr⟩ := (collect_responses_eq_none form qs).mp hn
      rw [hall q hm hr] at hnr
      exact absurd hnr (by decide)
    cases hcr : collect_responses form qs with
    | none => exact absurd hcr hc
    | some rs =>
      refine ⟨rs, rfl, ?_⟩
      simp only [submit_survey, hv, Bool.not_true, if_false, hcr]
      rfl

/-- Counterexample to C8 as stated: two submissions whose offending
required questions differ (`formA` misses q2, `formB` misses q1)
produce byte-identical rejection responses, so the offending question
is not surfaced to the submitter. -/
theorem submit_survey_surface_cex :
    submit_survey sample_sr sample_ref [q1, q2] formA 0 =
      submit_survey sample_sr sample_ref [q1, q2] formB 0 ∧
    has_response (question_response formA q1) = true ∧
    has_response (question_response formA q2) = false ∧
    has_response (question_response formB q1) = false ∧
    has_response (question_response formB q2) = true := by
  decide

/-- Witness for the amended C8: the concrete partial submission is
rejected with the generic message and unchanged rows. -/
theorem submit_survey_required_spec_witness :
    submit_survey sample_sr sample_ref [q1, q2] formA 0 =
      SubmitResult.rejected "Please answer all required questions." sample_sr
        sample_ref [q1, q2] :=
  (submit_survey_required_spec sample_sr sample_ref [q1, q2] formA 0 (by decide)).1
    ⟨q2, by decide, by decide, by decide⟩
